import Mathlib

/-!
Shallow embedding of the DB-Forge gateway core (Python sources under
src/services/db-gateway and src/src/db-gateway) together with proofs about
its contracts: name validation, SQL statement generation, statement
classification, auth gatekeeping, container lifecycle and the stats module.
-/

namespace DBForge

/-- Opaque scalar values carried in requests and rows (JSON scalars as the
Python layer sees them: str, int, bool, None). -/
inductive Value where
  | str (s : String)
  | int (n : Int)
  | bool (b : Bool)
  | null
deriving DecidableEq

/-- Rendering of a Value by Python string interpolation, as in
f-string interpolation of a default value into generated SQL. -/
def Value.pyStr : Value → String
  | .str s => s
  | .int n => toString n
  | .bool true => "True"
  | .bool false => "False"
  | .null => "None"

/-- HTTP-level failures raised by the gateway (HTTPException status classes). -/
inductive Err where
  | badRequest (detail : String)
  | notFound (detail : String)
  | unauthorized (detail : String)
  | serviceUnavailable (detail : String)
deriving DecidableEq

/-- The characters matched by the regex class [a-zA-Z0-9]. -/
def isAlnumChar (c : Char) : Bool := c.isAlpha || c.isDigit

/-- The characters matched by the regex class [a-zA-Z0-9_.-]. -/
def isNameChar (c : Char) : Bool := isAlnumChar c || c = '_' || c = '.' || c = '-'

/-- Membership of a character list in the language of the body
[a-zA-Z0-9][a-zA-Z0-9_.-]*: nonempty, alphanumeric head, every further
character alphanumeric, underscore, dot or hyphen. -/
def matchesNameList (cs : List Char) : Bool :=
  match cs with
  | [] => false
  | c :: rest => isAlnumChar c && rest.all isNameChar

/-- Full (mathematically anchored) membership of a string in the language of
the pattern caret [a-zA-Z0-9][a-zA-Z0-9_.-]* dollar. -/
def matchesNamePattern (s : String) : Bool := matchesNameList s.data

/-- From services/db-gateway/app/services/database.py, is_valid_db_name:
re.match of the anchored pattern.  Python re gives the dollar anchor an
extra behaviour: it also matches just before one newline at the very end of
the string, so a body match followed by a single trailing newline is also
accepted. -/
def is_valid_db_name (s : String) : Bool :=
  matchesNameList s.data ||
    ((match s.data.getLast? with
      | some c => c == '\n'
      | none => false) && matchesNameList s.data.dropLast)

/-- DB_DATA_PATH constant from utils/constants.py. -/
def DB_DATA_PATH : String := "/databases"

/-- get_db_path from providers/database.py: os.path.join of the data root
with name plus the .db suffix. -/
def get_db_path (db_name : String) : String := DB_DATA_PATH ++ "/" ++ db_name ++ ".db"

/-- get_worker_name from providers/database.py. -/
def get_worker_name (db_name : String) : String := "db-worker-" ++ db_name

/-! ## Structured table creation (claim about generated SQL) -/

/-- ColumnDefinition pydantic model. -/
structure ColumnDefinition where
  name : String
  type : String
  primary_key : Bool := false
  not_null : Bool := false
  default : Option Value := none
deriving DecidableEq

/-- CreateTableRequest pydantic model. -/
structure CreateTableRequest where
  table_name : String
  columns : List ColumnDefinition
deriving DecidableEq

/-- One column clause as accumulated by the loop in create_table of
services/db-gateway/app/routes/data.py: successive string appends, the
default interpolated directly into the f-string. -/
def columnClause (col : ColumnDefinition) : String :=
  let d := col.name ++ " " ++ col.type
  let d := if col.primary_key then d ++ " PRIMARY KEY" else d
  let d := if col.not_null then d ++ " NOT NULL" else d
  match col.default with
  | none => d
  | some v => d ++ " DEFAULT " ++ v.pyStr

/-- The statement generated by create_table in
services/db-gateway/app/routes/data.py. -/
def create_table_sql (req : CreateTableRequest) : String :=
  "CREATE TABLE " ++ req.table_name ++ " ("
    ++ String.intercalate ", " (req.columns.map columnClause) ++ ")"

/-- One column clause as accumulated by the loop in create_table of
src/db-gateway/main.py: identifiers single-quoted, a string default wrapped
in single quotes (its own quotes not escaped), other defaults interpolated
directly. -/
def columnClauseLegacy (col : ColumnDefinition) : String :=
  let d := "\x27" ++ col.name ++ "\x27 " ++ col.type
  let d := if col.primary_key then d ++ " PRIMARY KEY" else d
  let d := if col.not_null then d ++ " NOT NULL" else d
  match col.default with
  | none => d
  | some (.str s) => d ++ " DEFAULT \x27" ++ s ++ "\x27"
  | some v => d ++ " DEFAULT " ++ v.pyStr

/-- The statement generated by create_table in src/db-gateway/main.py. -/
def create_table_sql_legacy (req : CreateTableRequest) : String :=
  "CREATE TABLE IF NOT EXISTS \x27" ++ req.table_name ++ "\x27 ("
    ++ String.intercalate ", " (req.columns.map columnClauseLegacy) ++ ")"

/-- Column clause as the spec words it for the services builder: name and
type, then each modifier clause concatenated only when its attribute is set,
the default value inlined verbatim. -/
def specColumnClause (col : ColumnDefinition) : String :=
  col.name ++ " " ++ col.type
    ++ (if col.primary_key then " PRIMARY KEY" else "")
    ++ (if col.not_null then " NOT NULL" else "")
    ++ (match col.default with
        | none => ""
        | some v => " DEFAULT " ++ v.pyStr)

/-- Column clause as the spec words it for the legacy builder: quoted name,
type, modifier clauses only when set, string defaults wrapped in single
quotes and other defaults inlined verbatim. -/
def specColumnClauseLegacy (col : ColumnDefinition) : String :=
  "\x27" ++ col.name ++ "\x27 " ++ col.type
    ++ (if col.primary_key then " PRIMARY KEY" else "")
    ++ (if col.not_null then " NOT NULL" else "")
    ++ (match col.default with
        | none => ""
        | some (.str s) => " DEFAULT \x27" ++ s ++ "\x27"
        | some v => " DEFAULT " ++ v.pyStr)

/-- A concrete request with a string-valued default, used to inspect the
emitted literal. -/
def defaultStringReq : CreateTableRequest :=
  { table_name := "t"
    columns := [{ name := "c", type := "TEXT", default := some (.str "x") }] }

/-! ## Auth gatekeeper -/

/-- Outcome of the auth dependency: either an HTTPException or the request
is allowed through. -/
inductive AuthOutcome where
  | error (e : Err)
  | allowed
deriving DecidableEq

/-- verify_api_key_header from src/db-gateway/app/auth/auth.py.
The loaded secret is the module global ADMIN_API_KEY_HASH (empty string when
never loaded); the presented header is None when absent, and Python treats
an empty header value as falsy exactly like an absent one.  The one-way
hash comparison pwd_context.verify is an external capability, abstracted as
the function argument. -/
def verify_api_key_header (adminHash : String) (verify : String → String → Bool)
    (header : Option String) : AuthOutcome :=
  if adminHash = "" then
    .error (.serviceUnavailable "Authentication is not properly configured on the server.")
  else
    match header with
    | none => .error (.unauthorized "Missing API Key. Please provide a valid API key in the X-API-Key header.")
    | some k =>
      if k = "" then
        .error (.unauthorized "Missing API Key. Please provide a valid API key in the X-API-Key header.")
      else if verify k adminHash = false then
        .error (.unauthorized "Invalid API Key.")
      else
        .allowed

/-- A concrete stand-in for the one-way verifier, used by witnesses. -/
def witnessVerify (k h : String) : Bool := k == "secret" && h == "HASH"

/-! ## Raw query execution -/

/-- A fetched row: column name to value, in the declared column order. -/
abbrev Row := List (String × Value)

/-- What the embedded engine reports for one executed statement: the rows a
fetchall would return and the cursor rowcount. -/
structure EngineResult where
  rows : List Row
  rowcount : Int
deriving DecidableEq

/-- QueryResponse pydantic model. -/
structure QueryResponse where
  data : Option (List Row) := none
  rows_affected : Int
  message : Option String := none
deriving DecidableEq

/-- A docker container as the lifecycle code sees it: opaque id and status
string. -/
structure Container where
  id : String
  status : String
deriving DecidableEq

/-- The observable state around execute_query: the filesystem (path to file
contents, none when the file is absent) and the container runtime (container
name to container).  Only the filesystem is consulted by the data plane. -/
structure SysState where
  files : String → Option String
  containers : List (String × Container)

/-- Python str.strip on a character list: whitespace removed from both
ends. -/
def pyStrip (cs : List Char) : List Char :=
  ((cs.dropWhile Char.isWhitespace).reverse.dropWhile Char.isWhitespace).reverse

/-- Classification of a statement in execute_query: strip, uppercase, then
startswith SELECT (Python str.upper agrees with the ASCII Char.toUpper on
the characters the test inspects). -/
def is_select_stmt (sql : String) : Bool :=
  List.isPrefixOf "SELECT".data ((pyStrip sql.data).map Char.toUpper)

/-- execute_query from services/db-gateway/app/services/database.py.  The
embedded engine (aiosqlite execute) is the capability argument; it may fail
with an engine error message.  The second component of a success records
whether db.commit was issued. -/
def execute_query (st : SysState) (engine : String → List Value → Except String EngineResult)
    (db_name : String) (sql : String) (params : Option (List Value)) :
    Except Err (QueryResponse × Bool) :=
  if (st.files (get_db_path db_name)).isSome = false then
    .error (.notFound "Database not found.")
  else
    match engine sql (params.getD []) with
    | .error e => .error (.badRequest ("SQL Error: " ++ e))
    | .ok res =>
      if is_select_stmt sql then
        .ok ({ data := some res.rows, rows_affected := (res.rows.length : Int) }, false)
      else
        .ok ({ rows_affected := res.rowcount, message := some "Query executed successfully." }, true)

/-! ## Structured row insertion -/

/-- InsertResponse pydantic model. -/
structure InsertResponse where
  message : String
  rows_affected : Int
deriving DecidableEq

/-- row.keys() in insertion order. -/
def rowKeys (r : Row) : List String := r.map Prod.fst

/-- Python set equality of two key lists: set(a) == set(b). -/
def sameKeySet (a b : List String) : Bool :=
  a.all (fun k => b.contains k) && b.all (fun k => a.contains k)

/-- The positional values bound for one row: row[col] for col in columns.
The lookup always succeeds once the key sets agree. -/
def rowValues (columns : List String) (r : Row) : List Value :=
  columns.map (fun c => (r.lookup c).getD Value.null)

/-- The parameterized statement built by insert_rows from the first row key
list: INSERT INTO table (columns) VALUES (placeholders). -/
def insert_sql (table_name : String) (columns : List String) : String :=
  "INSERT INTO " ++ table_name ++ " (" ++ String.intercalate ", " columns
    ++ ") VALUES (" ++ String.intercalate ", " (columns.map (fun _ => "?")) ++ ")"

/-- The per-row loop of insert_rows in
services/db-gateway/app/routes/data.py: every row is checked against the
first row key set, executed rows stay pending on the open transaction, and
the cursor rowcounts are summed.  The engine accepting each execution of the
parameterized INSERT is the capability argument count. -/
def insert_loop (sql : String) (columns : List String) (count : String → List Value → Int) :
    List Row → List (List Value) → Int → Except Err (List (List Value) × Int)
  | [], pending, total => .ok (pending, total)
  | r :: rs, pending, total =>
    if sameKeySet (rowKeys r) columns = false then
      .error (.badRequest "All rows must have the same columns.")
    else
      insert_loop sql columns count rs (pending ++ [rowValues columns r])
        (total + count sql (rowValues columns r))

/-- insert_rows from services/db-gateway/app/routes/data.py.  The first
component of the result is the committed table contents after the call: a
raised HTTPException escapes the aiosqlite context without a commit, so the
pending rows are rolled back and the table is returned unchanged. -/
def insert_rows (files : String → Option String) (db_name table_name : String)
    (rows : List Row) (count : String → List Value → Int) (table : List (List Value)) :
    List (List Value) × Except Err InsertResponse :=
  if is_valid_db_name db_name = false then
    (table, .error (.badRequest "Invalid database name."))
  else if (files (get_db_path db_name)).isSome = false then
    (table, .error (.notFound "Database not found."))
  else
    match rows with
    | [] => (table, .error (.badRequest "No rows provided for insertion."))
    | r0 :: _ =>
      match insert_loop (insert_sql table_name (rowKeys r0)) (rowKeys r0) count rows [] 0 with
      | .error e => (table, .error e)
      | .ok (pending, total) =>
        (table ++ pending, .ok { message := "Rows inserted successfully.", rows_affected := total })

/-! ## Container lifecycle -/

/-- SpawnResponse pydantic model. -/
structure SpawnResponse where
  message : String
  db_name : String
  container_id : Option String := none
deriving DecidableEq

/-- PruneResponse pydantic model. -/
structure PruneResponse where
  message : String
  db_name : String
deriving DecidableEq

/-- The state the admin routes act on: the container runtime (name-keyed),
the filesystem, and whether docker.from_env succeeds. -/
structure GwState where
  docker : List (String × Container)
  files : String → Option String
  dockerAvail : Bool

/-- The effect of open(db_path, append).close() in spawn_database_container:
the file is created empty when absent and its contents are untouched when it
already exists. -/
def touch_append (files : String → Option String) (p : String) : String → Option String :=
  fun q => if q = p then some ((files p).getD "") else files q

/-- container.start() on the container stored under name w. -/
def start_container_in (docker : List (String × Container)) (w : String) :
    List (String × Container) :=
  docker.map (fun e => if e.1 = w then (e.1, { e.2 with status := "running" }) else e)

/-- spawn_database from src/db-gateway/app/routes/admin.py together with
spawn_database_container from providers/database.py: validate, reach the
runtime, look the worker container up by name; when found, start it if
exited and report it; when absent, touch the backing file and create a fresh
container whose runtime-assigned id is the newId argument. -/
def spawn_database (newId : String) (st : GwState) (db_name : String) :
    GwState × Except Err SpawnResponse :=
  if is_valid_db_name db_name = false then
    (st, .error (.badRequest "Invalid database name."))
  else if st.dockerAvail = false then
    (st, .error (.serviceUnavailable "Could not connect to Docker daemon. Is it running?"))
  else
    match st.docker.lookup (get_worker_name db_name) with
    | some c =>
      let docker2 :=
        if c.status = "exited" then start_container_in st.docker (get_worker_name db_name)
        else st.docker
      ({ st with docker := docker2 },
       .ok { message := "Database instance already exists and is running.",
             db_name := db_name, container_id := some c.id })
    | none =>
      ({ st with
          files := touch_append st.files (get_db_path db_name),
          docker := (get_worker_name db_name, { id := newId, status := "running" }) :: st.docker },
       .ok { message := "Database instance spawned successfully.",
             db_name := db_name, container_id := some newId })

/-- prune_database from src/db-gateway/app/routes/admin.py: no name
validation, reach the runtime, look the container up by worker name; when
found, stop then remove it (net runtime effect: the entry disappears); when
absent, 404.  The filesystem is never consulted. -/
def prune_database (st : GwState) (db_name : String) :
    GwState × Except Err PruneResponse :=
  if st.dockerAvail = false then
    (st, .error (.serviceUnavailable "Could not connect to Docker daemon. Is it running?"))
  else
    match st.docker.lookup (get_worker_name db_name) with
    | some _ =>
      ({ st with docker := st.docker.filter (fun e => e.1 != get_worker_name db_name) },
       .ok { message := "Database instance pruned successfully.", db_name := db_name })
    | none => (st, .error (.notFound "Database instance not found."))

/-! ## Gateway stats -/

/-- The four stats counters one module holds. -/
structure Stats where
  total_requests : Nat
  total_errors : Nat
  requests_by_endpoint : List (String × Nat)
  errors_by_type : List (String × Nat)
deriving DecidableEq

/-- The module-load value of the counters: 0, 0, empty dict, empty dict. -/
def Stats.init : Stats :=
  { total_requests := 0, total_errors := 0, requests_by_endpoint := [], errors_by_type := [] }

/-- d[k] = d.get(k, 0) + 1 on an insertion-ordered dict. -/
def bumpKey (m : List (String × Nat)) (k : String) : List (String × Nat) :=
  match m.lookup k with
  | some n => m.map (fun e => if e.1 = k then (k, n + 1) else e)
  | none => m ++ [(k, 1)]

/-- increment_request_count from src/db-gateway/app/main.py, acting on that
module globals. -/
def increment_request_count (s : Stats) (endpoint_pattern : String) : Stats :=
  { s with
      total_requests := s.total_requests + 1,
      requests_by_endpoint := bumpKey s.requests_by_endpoint endpoint_pattern }

/-- increment_error_count from src/db-gateway/app/main.py. -/
def increment_error_count (s : Stats) (statusCode : Nat) : Stats :=
  { s with
      total_errors := s.total_errors + 1,
      errors_by_type := bumpKey s.errors_by_type (toString statusCode) }

/-- The two independent copies of the counters: the module globals of
src/db-gateway/app/main.py (written by the middleware) and the module
globals of src/db-gateway/app/routes/admin.py (read by the stats route).
They are distinct Python modules, so distinct fields. -/
structure AppGlobals where
  mainStats : Stats
  adminStats : Stats
deriving DecidableEq

/-- Both modules initialise their counters to zero at import time. -/
def AppGlobals.init : AppGlobals := { mainStats := Stats.init, adminStats := Stats.init }

/-- stats_middleware from src/db-gateway/app/main.py, as a state transformer
over the process globals for one handled request: it increments the request
count for the computed endpoint pattern and, when the response status is 400
or above (or the handler raised, counted as 500), the error count — all on
the main module globals. -/
def stats_middleware (g : AppGlobals) (endpoint_pattern : String) (responseStatus : Nat) :
    AppGlobals :=
  let m := increment_request_count g.mainStats endpoint_pattern
  let m := if 400 ≤ responseStatus then increment_error_count m responseStatus else m
  { g with mainStats := m }

/-- The globals after the gateway has handled any sequence of requests,
each recorded by the middleware. -/
def process_requests (g : AppGlobals) : List (String × Nat) → AppGlobals
  | [] => g
  | r :: rs => process_requests (stats_middleware g r.1 r.2) rs

/-- get_gateway_stats from src/db-gateway/app/routes/admin.py: it reads the
counters owned by the admin module (uptime, read from the clock, is outside this
model). -/
def get_gateway_stats (g : AppGlobals) : Stats := g.adminStats

/-! ## Concrete fixtures used by witnesses -/

/-- A filesystem holding exactly one database file, mydb, with recorded
contents. -/
def witnessFiles : String → Option String :=
  fun p => if p = "/databases/mydb.db" then some "PAYLOAD" else none

/-- A runtime state holding one exited worker container for mydb. -/
def witnessGw : GwState :=
  { docker := [("db-worker-mydb", { id := "cid1", status := "exited" })],
    files := witnessFiles,
    dockerAvail := true }

/-- A runtime state with no containers at all. -/
def witnessGwEmpty : GwState :=
  { docker := [], files := witnessFiles, dockerAvail := true }

/-- An engine oracle answering every statement with one fixed row. -/
def witnessEngine : String → List Value → Except String EngineResult :=
  fun _ _ => .ok { rows := [[("a", Value.int 1)]], rowcount := 3 }

/-- A two-row batch sharing the key set a, b. -/
def witnessRows : List Row :=
  [[("a", Value.int 1), ("b", Value.str "x")], [("a", Value.int 2), ("b", Value.str "y")]]

/-- An engine oracle for inserts reporting one affected row per execution. -/
def witnessCount : String → List Value → Int := fun _ _ => 1

/-! ## Helper lemmas -/

theorem columnClause_eq_spec (col : ColumnDefinition) :
    columnClause col = specColumnClause col := by
  rcases col with ⟨nm, ty, pk, nn, df⟩
  cases pk <;> cases nn <;> rcases df with _ | v <;>
    exact String.ext (by
      simp [columnClause, specColumnClause, String.data_append,
        show ("" : String).data = [] from rfl])

theorem columnClauseLegacy_eq_spec (col : ColumnDefinition) :
    columnClauseLegacy col = specColumnClauseLegacy col := by
  rcases col with ⟨nm, ty, pk, nn, df⟩
  cases pk <;> cases nn <;> rcases df with _ | ⟨s | n | b | _⟩ <;>
    exact String.ext (by
      simp [columnClauseLegacy, specColumnClauseLegacy, String.data_append,
        show ("" : String).data = [] from rfl])

theorem insert_loop_all_match (sql : String) (columns : List String)
    (count : String → List Value → Int) (rs : List Row)
    (pending : List (List Value)) (total : Int)
    (h : ∀ r ∈ rs, sameKeySet (rowKeys r) columns = true) :
    insert_loop sql columns count rs pending total =
      .ok (pending ++ rs.map (rowValues columns),
           total + (rs.map (fun r => count sql (rowValues columns r))).sum) := by
  induction rs generalizing pending total with
  | nil => simp [insert_loop]
  | cons r rs ih =>
    have hr : sameKeySet (rowKeys r) columns = true := h r (by simp)
    rw [insert_loop, hr]
    simp only [Bool.true_eq_false, if_false]
    rw [ih _ _ (fun x hx => h x (by simp [hx]))]
    simp [List.append_assoc, add_assoc]

theorem insert_loop_mismatch (sql : String) (columns : List String)
    (count : String → List Value → Int) (rs : List Row)
    (pending : List (List Value)) (total : Int)
    (h : ∃ r ∈ rs, sameKeySet (rowKeys r) columns = false) :
    insert_loop sql columns count rs pending total =
      .error (.badRequest "All rows must have the same columns.") := by
  induction rs generalizing pending total with
  | nil => simp at h
  | cons r rs ih =>
    rw [insert_loop]
    cases hr : sameKeySet (rowKeys r) columns
    · simp
    · simp only [Bool.true_eq_false, if_false]
      rcases h with ⟨x, hx, hxf⟩
      rcases List.mem_cons.mp hx with hx | hx
      · rw [hx] at hxf
        rw [hxf] at hr
        cases hr
      · exact ih _ _ ⟨x, hx, hxf⟩

theorem process_requests_adminStats (g : AppGlobals) (reqs : List (String × Nat)) :
    (process_requests g reqs).adminStats = g.adminStats := by
  induction reqs generalizing g with
  | nil => rfl
  | cons r rs ih => simpa [process_requests, stats_middleware] using ih _

theorem start_container_in_names (ds : List (String × Container)) (w : String) :
    (start_container_in ds w).map Prod.fst = ds.map Prod.fst := by
  induction ds with
  | nil => rfl
  | cons e es ih =>
    simp only [start_container_in, List.map_cons] at ih ⊢
    by_cases hk : e.1 = w <;> simp [hk, ih]

theorem lookup_start_container_in (ds : List (String × Container)) (w : String) :
    (start_container_in ds w).lookup w =
      (ds.lookup w).map (fun c => { c with status := "running" }) := by
  induction ds with
  | nil => rfl
  | cons e es ih =>
    rcases e with ⟨k, c⟩
    simp only [start_container_in, List.map_cons] at ih ⊢
    by_cases hk : k = w
    · subst hk
      rw [if_pos rfl]
      simp [List.lookup]
    · rw [if_neg hk]
      have hb : (w == k) = false := beq_eq_false_iff_ne.mpr (fun h => hk h.symm)
      simp [List.lookup, hb, ih]

theorem lookup_filter_self (ds : List (String × Container)) (w : String) :
    (ds.filter (fun e => e.1 != w)).lookup w = none := by
  induction ds with
  | nil => rfl
  | cons e es ih =>
    rcases e with ⟨k, c⟩
    by_cases hk : k = w
    · have hb : (((k, c) : String × Container).1 != w) = false := by simp [hk]
      simp [List.filter_cons, hb, ih]
    · have hb : (((k, c) : String × Container).1 != w) = true := by simp [hk]
      have hb2 : (w == k) = false := beq_eq_false_iff_ne.mpr (fun h => hk h.symm)
      simp [List.filter_cons, hb, List.lookup, hb2, ih]

theorem lookup_filter_other (ds : List (String × Container)) (w w2 : String)
    (h : w2 ≠ w) :
    (ds.filter (fun e => e.1 != w)).lookup w2 = ds.lookup w2 := by
  induction ds with
  | nil => rfl
  | cons e es ih =>
    rcases e with ⟨k, c⟩
    by_cases hk : k = w
    · have hb : (((k, c) : String × Container).1 != w) = false := by simp [hk]
      have hb2 : (w2 == k) = false := beq_eq_false_iff_ne.mpr (by rw [hk]; exact h)
      simp [List.filter_cons, hb, List.lookup, hb2, ih]
    · have hb : (((k, c) : String × Container).1 != w) = true := by simp [hk]
      by_cases hk3 : w2 = k
      · subst hk3
        simp [List.filter_cons, hb, List.lookup]
      · have hb2 : (w2 == k) = false := beq_eq_false_iff_ne.mpr hk3
        simp [List.filter_cons, hb, List.lookup, hb2, ih]

/-! ## Claim theorems -/

/-- Claim C6: the code accepts a string the anchored pattern rejects.  The
Python dollar anchor also matches just before a single trailing newline, so
is_valid_db_name returns true on the two-character string a-newline even
though that string contains whitespace and is outside the language of the
anchored pattern. -/
theorem is_valid_db_name_accepts_trailing_newline :
    is_valid_db_name "a\n" = true ∧
    matchesNamePattern "a\n" = false ∧
    ("a\n".data.any (fun c => c.isWhitespace)) = true := by
  refine ⟨?_, ?_, ?_⟩ <;> decide

/-- Claim C2 (counterexample): in the services builder, whose output has the
claimed CREATE TABLE name shape, a string-valued default is NOT
quote-escaped: the emitted statement for a column with string default x
carries the bare token x, and no quote character occurs anywhere in it. -/
theorem create_table_sql_string_default_unquoted :
    create_table_sql defaultStringReq = "CREATE TABLE t (c TEXT DEFAULT x)" ∧
    ((create_table_sql defaultStringReq).data.all (fun c => c ≠ Char.ofNat 39)) = true := by
  refine ⟨?_, ?_⟩ <;> decide

/-- Claim C2 (amended): the services builder emits CREATE TABLE name with
the column clauses in the given order and modifier clauses only for
attributes set, every default - string or not - inlined verbatim without
quoting; the legacy builder instead emits CREATE TABLE IF NOT EXISTS with
single-quoted identifiers, wrapping string defaults in single quotes without
escaping embedded quotes and inlining non-string defaults verbatim. -/
theorem create_table_sql_shape (req : CreateTableRequest) :
    create_table_sql req =
      "CREATE TABLE " ++ req.table_name ++ " ("
        ++ String.intercalate ", " (req.columns.map specColumnClause) ++ ")" ∧
    create_table_sql_legacy req =
      "CREATE TABLE IF NOT EXISTS \x27" ++ req.table_name ++ "\x27 ("
        ++ String.intercalate ", " (req.columns.map specColumnClauseLegacy) ++ ")" := by
  have h1 : columnClause = specColumnClause := funext columnClause_eq_spec
  have h2 : columnClauseLegacy = specColumnClauseLegacy := funext columnClauseLegacy_eq_spec
  constructor
  · unfold create_table_sql
    rw [h1]
  · unfold create_table_sql_legacy
    rw [h2]

/-- Claim C3: the auth gatekeeper rejects with service-unavailable whenever
no secret hash was loaded, regardless of header or verifier (the check comes
first, so auth is never silently open); with a loaded hash it rejects an
absent header with unauthorized, rejects a presented credential that fails
the one-way hash comparison with unauthorized, and allows the request
exactly when verification succeeds. -/
theorem verify_api_key_header_spec (adminHash : String) (verify : String → String → Bool)
    (header : Option String) :
    (adminHash = "" →
      verify_api_key_header adminHash verify header =
        .error (.serviceUnavailable "Authentication is not properly configured on the server.")) ∧
    (adminHash ≠ "" → header = none →
      verify_api_key_header adminHash verify header =
        .error (.unauthorized "Missing API Key. Please provide a valid API key in the X-API-Key header.")) ∧
    (∀ k, adminHash ≠ "" → header = some k → k ≠ "" → verify k adminHash = false →
      verify_api_key_header adminHash verify header = .error (.unauthorized "Invalid API Key.")) ∧
    (∀ k, adminHash ≠ "" → header = some k → k ≠ "" → verify k adminHash = true →
      verify_api_key_header adminHash verify header = .allowed) := by
  refine ⟨?_, ?_, ?_, ?_⟩
  · intro h
    simp [verify_api_key_header, h]
  · intro h hh
    simp [verify_api_key_header, h, hh]
  · intro k h hh hk hv
    simp [verify_api_key_header, h, hh, hk, hv]
  · intro k h hh hk hv
    simp [verify_api_key_header, h, hh, hk, hv]

/-- Witness for C3: the four outcomes at concrete inputs. -/
theorem verify_api_key_header_spec_witness :
    verify_api_key_header "" witnessVerify (some "secret") =
      .error (.serviceUnavailable "Authentication is not properly configured on the server.") ∧
    verify_api_key_header "HASH" witnessVerify none =
      .error (.unauthorized "Missing API Key. Please provide a valid API key in the X-API-Key header.") ∧
    verify_api_key_header "HASH" witnessVerify (some "wrong") =
      .error (.unauthorized "Invalid API Key.") ∧
    verify_api_key_header "HASH" witnessVerify (some "secret") = .allowed := by
  refine ⟨?_, ?_, ?_, ?_⟩
  · exact (verify_api_key_header_spec "" witnessVerify (some "secret")).1 rfl
  · exact (verify_api_key_header_spec "HASH" witnessVerify none).2.1 (by decide) rfl
  · exact (verify_api_key_header_spec "HASH" witnessVerify (some "wrong")).2.2.1 "wrong"
      (by decide) rfl (by decide) (by decide)
  · exact (verify_api_key_header_spec "HASH" witnessVerify (some "secret")).2.2.2 "secret"
      (by decide) rfl (by decide) (by decide)

/-- Claim C4: when the backing file of the named database is absent, raw
query execution fails not-found whatever the SQL text, the parameters, the
engine, and the container runtime state: the existence check is the file,
never the container. -/
theorem execute_query_missing_db (files : String → Option String)
    (containers : List (String × Container))
    (engine : String → List Value → Except String EngineResult)
    (db_name sql : String) (params : Option (List Value))
    (h : files (get_db_path db_name) = none) :
    execute_query ⟨files, containers⟩ engine db_name sql params =
      .error (.notFound "Database not found.") := by
  simp [execute_query, h]

/-- Witness for C4: a state whose runtime still holds a running container
for mydb but whose filesystem has no backing file. -/
theorem execute_query_missing_db_witness :
    execute_query
        ⟨fun _ => none, [("db-worker-mydb", { id := "cid1", status := "running" })]⟩
        witnessEngine "mydb" "SELECT * FROM t" none =
      .error (.notFound "Database not found.") :=
  execute_query_missing_db (fun _ => none) [("db-worker-mydb", { id := "cid1", status := "running" })]
    witnessEngine "mydb" "SELECT * FROM t" none rfl

/-- Claim C5: with the backing file present and the engine answering, the
result kind is decided solely by the case-insensitive SELECT prefix test on
the trimmed statement: a statement so classified returns the fetched rows
with rows_affected equal to their number and commits nothing, any other
statement commits and returns the engine affected-row count with no data
payload. -/
theorem execute_query_classified_by_select (st : SysState)
    (engine : String → List Value → Except String EngineResult)
    (db_name sql : String) (params : Option (List Value)) (res : EngineResult)
    (hfile : (st.files (get_db_path db_name)).isSome = true)
    (hengine : engine sql (params.getD []) = .ok res) :
    ∃ resp committed, execute_query st engine db_name sql params = .ok (resp, committed) ∧
      resp.data.isSome = is_select_stmt sql ∧
      (is_select_stmt sql = true →
        resp.data = some res.rows ∧ resp.rows_affected = (res.rows.length : Int) ∧
        resp.message = none ∧ committed = false) ∧
      (is_select_stmt sql = false →
        resp.data = none ∧ resp.rows_affected = res.rowcount ∧
        resp.message = some "Query executed successfully." ∧ committed = true) := by
  cases hs : is_select_stmt sql
  · refine ⟨{ rows_affected := res.rowcount, message := some "Query executed successfully." },
      true, ?_, by simp [hs], by simp, fun _ => ⟨rfl, rfl, rfl, rfl⟩⟩
    simp [execute_query, hfile, hengine, hs]
  · refine ⟨{ data := some res.rows, rows_affected := (res.rows.length : Int) },
      false, ?_, by simp [hs], fun _ => ⟨rfl, rfl, rfl, rfl⟩, by simp⟩
    simp [execute_query, hfile, hengine, hs]

/-- Witness for C5: a lowercase select with leading whitespace against the
fixture state, classified as row-returning. -/
theorem execute_query_classified_by_select_witness :
    execute_query ⟨witnessFiles, []⟩ witnessEngine "mydb" "  select * from t" none =
      .ok ({ data := some [[("a", Value.int 1)]], rows_affected := 1 }, false) ∧
    is_select_stmt "  select * from t" = true := by
  obtain ⟨resp, committed, heq, _, hsel, _⟩ :=
    execute_query_classified_by_select ⟨witnessFiles, []⟩ witnessEngine "mydb"
      "  select * from t" none { rows := [[("a", Value.int 1)]], rowcount := 3 }
      (by decide) rfl
  obtain ⟨hd, hra, hm, hc⟩ := hsel (by decide)
  refine ⟨?_, by decide⟩
  rw [heq, hc]
  rcases resp with ⟨d, ra, m⟩
  simp only at hd hra hm
  rw [hd, hra, hm]
  norm_num

/-- Claim C1: a structured row insertion against a valid, existing database
fails with a 400 client error and commits nothing - the table is returned
unchanged - when the batch is empty or some row key set differs from the
first row key set; otherwise every row is inserted under the single
transaction committed once at the end, and rows_affected is the sum of the
engine affected counts over all rows. -/
theorem insert_rows_spec (files : String → Option String) (db_name table_name : String)
    (rows : List Row) (count : String → List Value → Int) (table : List (List Value))
    (hval : is_valid_db_name db_name = true)
    (hex : (files (get_db_path db_name)).isSome = true) :
    (rows = [] →
      insert_rows files db_name table_name rows count table =
        (table, .error (.badRequest "No rows provided for insertion."))) ∧
    (∀ r0 rs, rows = r0 :: rs →
      ((∃ r ∈ rows, sameKeySet (rowKeys r) (rowKeys r0) = false) →
        insert_rows files db_name table_name rows count table =
          (table, .error (.badRequest "All rows must have the same columns."))) ∧
      ((∀ r ∈ rows, sameKeySet (rowKeys r) (rowKeys r0) = true) →
        insert_rows files db_name table_name rows count table =
          (table ++ rows.map (rowValues (rowKeys r0)),
           .ok { message := "Rows inserted successfully.",
                 rows_affected := (rows.map (fun r =>
                   count (insert_sql table_name (rowKeys r0)) (rowValues (rowKeys r0) r))).sum }))) := by
  constructor
  · intro h
    subst h
    simp [insert_rows, hval, hex]
  · intro r0 rs hr
    subst hr
    constructor
    · intro hbad
      have hl := insert_loop_mismatch (insert_sql table_name (rowKeys r0)) (rowKeys r0)
        count (r0 :: rs) [] 0 hbad
      simp [insert_rows, hval, hex, hl]
    · intro hgood
      have hl := insert_loop_all_match (insert_sql table_name (rowKeys r0)) (rowKeys r0)
        count (r0 :: rs) [] 0 hgood
      simp [insert_rows, hval, hex, hl]

/-- Witness for C1: inserting the two-row fixture batch into an empty table
commits both rows and reports 2 affected. -/
theorem insert_rows_spec_witness :
    insert_rows witnessFiles "mydb" "t" witnessRows witnessCount [] =
      ([[Value.int 1, Value.str "x"], [Value.int 2, Value.str "y"]],
       .ok { message := "Rows inserted successfully.", rows_affected := 2 }) := by
  have h := ((insert_rows_spec witnessFiles "mydb" "t" witnessRows witnessCount []
      (by decide) (by decide)).2 [("a", Value.int 1), ("b", Value.str "x")]
      [[("a", Value.int 2), ("b", Value.str "y")]] rfl).2 (by decide)
  rw [h]
  rfl

/-- Claim C7: spawn is idempotent.  When a worker container for a valid name
already exists, spawn reports it as already existing with that container id,
creates no container (the runtime name list is unchanged), and starts the
container first when its status is exited; consequently a second spawn after
any successful spawn returns the same container id with the already-exists
message and creates nothing. -/
theorem spawn_idempotent (newId newId2 : String) (st : GwState) (db_name : String)
    (hval : is_valid_db_name db_name = true) (havail : st.dockerAvail = true) :
    (∀ c, st.docker.lookup (get_worker_name db_name) = some c →
      (spawn_database newId st db_name).2 =
        .ok { message := "Database instance already exists and is running.",
              db_name := db_name, container_id := some c.id } ∧
      (spawn_database newId st db_name).1.docker.map Prod.fst = st.docker.map Prod.fst ∧
      (c.status = "exited" →
        (spawn_database newId st db_name).1.docker.lookup (get_worker_name db_name) =
          some { c with status := "running" })) ∧
    (∀ st1 r1, spawn_database newId st db_name = (st1, .ok r1) →
      (spawn_database newId2 st1 db_name).2 =
        .ok { message := "Database instance already exists and is running.",
              db_name := db_name, container_id := r1.container_id } ∧
      (spawn_database newId2 st1 db_name).1.docker.map Prod.fst = st1.docker.map Prod.fst) := by
  constructor
  · intro c hc
    refine ⟨?_, ?_, ?_⟩
    · simp [spawn_database, hval, havail, hc]
    · by_cases hs : c.status = "exited" <;>
        simp [spawn_database, hval, havail, hc, hs, start_container_in_names]
    · intro hs
      simp [spawn_database, hval, havail, hc, hs, lookup_start_container_in]
  · intro st1 r1 h1
    cases hc : st.docker.lookup (get_worker_name db_name) with
    | none =>
      simp only [spawn_database, hval, havail, hc] at h1
      simp only [Bool.true_eq_false, if_false, Prod.mk.injEq, Except.ok.injEq] at h1
      obtain ⟨hst1, hr1⟩ := h1
      have havail1 : st1.dockerAvail = true := by rw [← hst1]
      have hlook1 : st1.docker.lookup (get_worker_name db_name) =
          some { id := newId, status := "running" } := by
        rw [← hst1]
        simp [List.lookup]
      refine ⟨?_, ?_⟩
      · simp [spawn_database, hval, havail1, hlook1, ← hr1]
      · simp [spawn_database, hval, havail1, hlook1]
    | some c =>
      simp only [spawn_database, hval, havail, hc] at h1
      simp only [Bool.true_eq_false, if_false, Prod.mk.injEq, Except.ok.injEq] at h1
      obtain ⟨hst1, hr1⟩ := h1
      have havail1 : st1.dockerAvail = true := by rw [← hst1]
      by_cases hs : c.status = "exited"
      · have hlook1 : st1.docker.lookup (get_worker_name db_name) =
            some { c with status := "running" } := by
          rw [← hst1]
          simp [hs, lookup_start_container_in, hc]
        refine ⟨?_, ?_⟩
        · simp [spawn_database, hval, havail1, hlook1, ← hr1]
        · simp [spawn_database, hval, havail1, hlook1]
      · have hlook1 : st1.docker.lookup (get_worker_name db_name) = some c := by
          rw [← hst1]
          simp [hs, hc]
        refine ⟨?_, ?_⟩
        · simp [spawn_database, hval, havail1, hlook1, hs, ← hr1]
        · simp [spawn_database, hval, havail1, hlook1, hs]

/-- Witness for C7: spawning mydb over an exited container reports it as
already existing under the original id cid1, with the runtime names
unchanged and the container started; a repeat spawn returns cid1 again. -/
theorem spawn_idempotent_witness :
    (spawn_database "newid" witnessGw "mydb").2 =
      .ok { message := "Database instance already exists and is running.",
            db_name := "mydb", container_id := some "cid1" } ∧
    (spawn_database "newid" witnessGw "mydb").1.docker.map Prod.fst =
      witnessGw.docker.map Prod.fst ∧
    (spawn_database "newid" witnessGw "mydb").1.docker.lookup "db-worker-mydb" =
      some { id := "cid1", status := "running" } := by
  have h := (spawn_idempotent "newid" "n2" witnessGw "mydb" (by decide) rfl).1
    { id := "cid1", status := "exited" } (by rfl)
  exact ⟨h.1, h.2.1, h.2.2 rfl⟩

/-- Claim C8: lifecycle operations never alter the backing file contents:
spawn on a name whose file exists keeps those exact contents (open-append
semantics) and touches no other path, while prune leaves the whole
filesystem untouched, removes exactly the one worker container, and keeps
every other container. -/
theorem lifecycle_preserves_backing_file (newId : String) (st : GwState)
    (db_name : String) (contents : String)
    (havail : st.dockerAvail = true)
    (hfile : st.files (get_db_path db_name) = some contents) :
    (spawn_database newId st db_name).1.files (get_db_path db_name) = some contents ∧
    (∀ p, p ≠ get_db_path db_name →
      (spawn_database newId st db_name).1.files p = st.files p) ∧
    (∀ p, (prune_database st db_name).1.files p = st.files p) ∧
    (prune_database st db_name).1.docker.lookup (get_worker_name db_name) = none ∧
    (∀ w2, w2 ≠ get_worker_name db_name →
      (prune_database st db_name).1.docker.lookup w2 = st.docker.lookup w2) := by
  refine ⟨?_, ?_, ?_, ?_, ?_⟩
  · by_cases hval : is_valid_db_name db_name
    · cases hc : st.docker.lookup (get_worker_name db_name) with
      | none => simp [spawn_database, hval, havail, hc, touch_append, hfile]
      | some c => simp [spawn_database, hval, havail, hc, hfile]
    · simp only [Bool.not_eq_true] at hval
      simp [spawn_database, hval, hfile]
  · intro p hp
    by_cases hval : is_valid_db_name db_name
    · cases hc : st.docker.lookup (get_worker_name db_name) with
      | none => simp [spawn_database, hval, havail, hc, touch_append, hp]
      | some c => simp [spawn_database, hval, havail, hc]
    · simp only [Bool.not_eq_true] at hval
      simp [spawn_database, hval]
  · intro p
    cases hc : st.docker.lookup (get_worker_name db_name) with
    | none => simp [prune_database, havail, hc]
    | some c => simp [prune_database, havail, hc]
  · cases hc : st.docker.lookup (get_worker_name db_name) with
    | none => simp [prune_database, havail, hc]
    | some c => simp [prune_database, havail, hc, lookup_filter_self]
  · intro w2 hw
    cases hc : st.docker.lookup (get_worker_name db_name) with
    | none => simp [prune_database, havail, hc]
    | some c => simp [prune_database, havail, hc, lookup_filter_other _ _ _ hw]

/-- Witness for C8: spawning and pruning mydb around the fixture state keep
the recorded file PAYLOAD, and pruning removes the single worker. -/
theorem lifecycle_preserves_backing_file_witness :
    (spawn_database "newid" witnessGw "mydb").1.files "/databases/mydb.db" = some "PAYLOAD" ∧
    (prune_database witnessGw "mydb").1.files "/databases/mydb.db" = some "PAYLOAD" ∧
    (prune_database witnessGw "mydb").1.docker.lookup "db-worker-mydb" = none := by
  have h := lifecycle_preserves_backing_file "newid" witnessGw "mydb" "PAYLOAD" rfl (by decide)
  refine ⟨h.1, ?_, h.2.2.2.1⟩
  have h3 := h.2.2.1 "/databases/mydb.db"
  rw [h3]
  decide

/-- Claim C9: prune performs no name validation: any name with no matching
container - the invalid ones included - fails with the 404 not-found error,
while spawn rejects the same invalid name with the 400 invalid-name client
error. -/
theorem prune_skips_name_validation (newId : String) (st : GwState) (db_name : String)
    (havail : st.dockerAvail = true)
    (hmiss : st.docker.lookup (get_worker_name db_name) = none) :
    (prune_database st db_name).2 = .error (.notFound "Database instance not found.") ∧
    (is_valid_db_name db_name = false →
      (spawn_database newId st db_name).2 = .error (.badRequest "Invalid database name.")) := by
  constructor
  · simp [prune_database, havail, hmiss]
  · intro hval
    simp [spawn_database, hval]

/-- Witness for C9: the name bad/name is rejected by the validator, yet
prune answers 404 where spawn answers 400. -/
theorem prune_skips_name_validation_witness :
    is_valid_db_name "bad/name" = false ∧
    (prune_database witnessGwEmpty "bad/name").2 =
      .error (.notFound "Database instance not found.") ∧
    (spawn_database "newid" witnessGwEmpty "bad/name").2 =
      .error (.badRequest "Invalid database name.") := by
  have h := prune_skips_name_validation "newid" witnessGwEmpty "bad/name" rfl rfl
  exact ⟨by decide, h.1, h.2 (by decide)⟩

/-- Claim C10: the stats route always reports zero activity: after any
sequence of handled requests - each recorded by the middleware into the main
module counters - the admin module counters it actually reads are still the
import-time zeros, so total_requests and total_errors are 0 and both
breakdown maps are empty. -/
theorem gateway_stats_reports_zero (reqs : List (String × Nat)) :
    (get_gateway_stats (process_requests AppGlobals.init reqs)).total_requests = 0 ∧
    (get_gateway_stats (process_requests AppGlobals.init reqs)).total_errors = 0 ∧
    (get_gateway_stats (process_requests AppGlobals.init reqs)).requests_by_endpoint = [] ∧
    (get_gateway_stats (process_requests AppGlobals.init reqs)).errors_by_type = [] := by
  have h : get_gateway_stats (process_requests AppGlobals.init reqs) = Stats.init := by
    unfold get_gateway_stats
    rw [process_requests_adminStats]
    rfl
  rw [h]
  exact ⟨rfl, rfl, rfl, rfl⟩

end DBForge
